import Mathlib

/-!
Verification of the studio-inertia-function twin reconciler (`src/main.py`).

Shallow embedding conventions:
* Python dicts of string labels become association lists `List (String × String)`
  looked up with `dictGet` (first binding wins; Python dicts have unique keys).
* Temperatures and the decay coefficient are modelled as exact rationals `ℚ`
  (the source's float arithmetic, taken at real-number semantics).
* Timestamps are modelled by their integer unixtime; `convert_event_data_timestamp`
  (a pandas call in `helpers/general.py`) is the external parser that produces them,
  so devices and events carry the unixtime directly.
* Python's `float(s)` builtin is modelled by an oracle `pyFloat : String → Option ℚ`
  (`none` models the `ValueError` branch).
* All HTTP registry effects (`requests.post/delete/patch`) are reified as a trace of
  `RegistryCall` values; the external registry's responses are supplied as oracle
  parameters (`deleteStatus`, `spawnResult`, `renameStatus`, `publishStatus`).
* A Python `KeyError` on an unguarded dict access is modelled everywhere the
  source can throw: the embedded function's result becomes `none` while the trace
  of registry calls issued before the exception is kept. This includes the
  unguarded `labels['name']` accesses inside log lines — `find_twin`'s match log
  (main.py line 169), `clean_twins`' delete-success log (line 215) and
  `refresh_twin_name`'s rename-success log (line 314) — which abort the
  invocation when they hit a bound twin lacking a `name` label.
* The text of `print` logging is not modelled, but its crashing accesses are.
-/

namespace StudioInertia

/-- `EMULATION_LABEL = 'inertia-model'` (main.py line 20). -/
def EMULATION_LABEL : String := "inertia-model"

/-- `TWIN_NAME_APPENDIX = ' twin'` (main.py line 21). -/
def TWIN_NAME_APPENDIX : String := " twin"

/-- `ORIGINAL_DEVICE_LABEL = 'original_device_id'` (main.py line 22). -/
def ORIGINAL_DEVICE_LABEL : String := "original_device_id"

/-- Python `s.split('/')[-1]`: the suffix of `s` after its last `'/'` (the whole
string when no `'/'` occurs). Implemented by a left fold over the characters that
restarts the accumulator at each separator, which is exactly the last element of
the `'/'`-split. -/
def lastComponent (s : String) : String :=
  ⟨s.data.foldl (fun acc c => if c = '/' then [] else acc ++ [c]) []⟩

/-- Python `s.startswith(p)`: `p.data` is a list prefix of `s.data`. -/
def strStartsWith (s p : String) : Bool :=
  p.data.isPrefixOf s.data

/-- A temperature reading `{'value': ..., 'updateTime': ...}`; `updateTime` is
kept as its parsed unixtime. -/
structure TempReading where
  value : ℚ
  updateTime : Int
deriving DecidableEq, Repr

/-- The twin's `reported` dict. `temperature = none` models the `'temperature'`
key being absent; `temperature = some none` models `reported['temperature'] == None`;
`temperature = some (some r)` models a present reading. -/
structure Reported where
  temperature : Option (Option TempReading)
deriving DecidableEq, Repr

/-- A device dict from the project roster: resource `name` path, `labels` dict
and the optional `reported` state. -/
structure Device where
  name : String
  labels : List (String × String)
  reported : Option Reported := none
deriving DecidableEq, Repr

/-- Python dict lookup `d[k]` as an option (association list, first binding wins). -/
def dictGet (d : List (String × String)) (k : String) : Option String :=
  (d.find? (fun p => p.1 == k)).map (fun p => p.2)

/-- Python `k in d.keys()`. -/
def hasKey (d : List (String × String)) (k : String) : Bool :=
  (dictGet d k).isSome

/-- An event dict. `temperatureData` is `event['data']['temperature']` (absent for
non-temperature events); `added`/`modified`/`removed` are the `labelsChanged`
payload (added and modified are dicts, removed is a list of keys). -/
structure Event where
  eventType : String
  targetName : String
  temperatureData : Option TempReading := none
  added : List (String × String) := []
  modified : List (String × String) := []
  removed : List String := []
deriving DecidableEq, Repr

/-- One reified registry side effect. -/
inductive RegistryCall where
  | delete (deviceId : String) : RegistryCall
  | create (originalId : String) (twinName : String) : RegistryCall
  | rename (twinId : String) (newName : String) : RegistryCall
  | publish (twinId : String) (value : ℚ) : RegistryCall
deriving DecidableEq, Repr

/-- `get_device_name` (main.py lines 118-139): the `name` label if present,
else the last component of the resource path. -/
def get_device_name (device : Device) : String :=
  match dictGet device.labels "name" with
  | some n => n
  | none => lastComponent device.name

/-- The per-device condition of the `find_twin` / `clean_twins` loops: the id is
`emu`-prefixed and the `original_device_id` label exists and equals `device_id`. -/
def twinMatch (device_id : String) (device : Device) : Bool :=
  strStartsWith (lastComponent device.name) "emu"
    && (dictGet device.labels ORIGINAL_DEVICE_LABEL == some device_id)

/-- `find_twin` (main.py lines 142-173): scan the roster, skip devices whose id
is not `emu`-prefixed, return the first whose `original_device_id` label equals
`device_id`. The match log on line 169 reads `device['labels']['name']`
unguarded, so a matched twin lacking the `name` label raises `KeyError` instead
of being returned: the overall result is `none`. Otherwise `some none` models a
normal return of Python `None` (no twin found) and `some (some d)` a returned
twin. -/
def find_twin (device_id : String) (device_list : List Device) :
    Option (Option Device) :=
  match device_list with
  | [] => some none
  | device :: rest =>
    if ¬ strStartsWith (lastComponent device.name) "emu" then
      find_twin device_id rest
    else if dictGet device.labels ORIGINAL_DEVICE_LABEL == some device_id then
      if dictGet device.labels "name" = none then none
      else some (some device)
    else
      find_twin device_id rest

/-- `clean_twins` (main.py lines 176-217): iterate the roster, send one delete per
`emu`-prefixed device bound to `device_id` (the delete response is supplied by the
`deleteStatus` oracle). The success log on line 215 reads
`device['labels']['name']` unguarded, so a delete that returns 200 for a twin
lacking the `name` label raises `KeyError` and aborts the remaining iterations
(the non-200 branch logs only `device_id` and is safe). The result is the list of
deletes issued before the loop ended, paired with their statuses, and a flag that
is `true` iff the loop completed without raising. -/
def clean_twins (device_id : String) (device_list : List Device)
    (deleteStatus : String → Nat) : List (String × Nat) × Bool :=
  match device_list with
  | [] => ([], true)
  | device :: rest =>
    if ¬ strStartsWith (lastComponent device.name) "emu" then
      clean_twins device_id rest deleteStatus
    else if dictGet device.labels ORIGINAL_DEVICE_LABEL == some device_id then
      if deleteStatus (lastComponent device.name) = 200
          ∧ dictGet device.labels "name" = none then
        ([(lastComponent device.name, deleteStatus (lastComponent device.name))],
          false)
      else
        ((lastComponent device.name, deleteStatus (lastComponent device.name))
            :: (clean_twins device_id rest deleteStatus).1,
          (clean_twins device_id rest deleteStatus).2)
    else
      clean_twins device_id rest deleteStatus

/-- The registry-call trace of one `clean_twins` run (the deletes issued up to
the point where the loop completed or raised). -/
def cleanupCalls (device_id : String) (device_list : List Device)
    (deleteStatus : String → Nat) : List RegistryCall :=
  (clean_twins device_id device_list deleteStatus).1.map
    (fun p => RegistryCall.delete p.1)

/-- `find_original_device` (main.py lines 261-288): first roster device whose id
equals `device_id`. -/
def find_original_device (device_id : String) (device_list : List Device) :
    Option Device :=
  match device_list with
  | [] => none
  | device :: rest =>
    if device_id == lastComponent device.name then some device
    else find_original_device device_id rest

/-- `update_emulated_twin` (main.py lines 55-115). `eventTemp` is
`event['data']['temperature']` (its unguarded access on line 84 yields `none` when
absent); `pyFloat` models the `float(coefficient)` parse on line 79 (`none` =
`ValueError`, which the source turns into a 200 skip). When the twin has a present
`reported` dict whose `'temperature'` key is absent, line 87's access raises
`KeyError`, modelled as the overall `none`. Otherwise the new value is computed
(lines 87-104) and one publish call is issued; a non-200 publish response becomes
the error status of line 112. -/
def update_emulated_twin (eventTemp : Option TempReading) (twin : Device)
    (coefficient : String) (pyFloat : String → Option ℚ)
    (publishStatus : ℚ → Nat) : Option ((String × Nat) × List RegistryCall) :=
  match pyFloat coefficient with
  | none => some (("-- non-float coefficient, skipping...", 200), [])
  | some k =>
    match eventTemp with
    | none => none
    | some reading =>
      let newValueOpt : Option ℚ :=
        match twin.reported with
        | none => some reading.value
        | some rep =>
          match rep.temperature with
          | none => none
          | some none => some reading.value
          | some (some prev) =>
            let normaliser : ℚ := ((reading.updateTime - prev.updateTime : Int) : ℚ) / 60
            let dt : ℚ := -k * (prev.value - reading.value)
            some (prev.value + dt * normaliser)
      match newValueOpt with
      | none => none
      | some new_value =>
        let twin_id := lastComponent twin.name
        if publishStatus new_value ≠ 200 then
          some (("ERROR: bad emit response", publishStatus new_value),
                [RegistryCall.publish twin_id new_value])
        else
          some (("OK", 200), [RegistryCall.publish twin_id new_value])

/-- `spawn_twin`'s payload name (main.py line 244): `original_name + ' twin'`. -/
def twinDisplayName (original_name : String) : String :=
  original_name ++ TWIN_NAME_APPENDIX

/-- The rename step of `synchronize_emulated_twin` (main.py lines 388-390
guarding `refresh_twin_name`, lines 291-316): when the twin's display name does
not start with the original's display name, one patch of the `name` label to
`<original display name> twin` is issued. The success log on line 314 reads
`twin['labels']['name']` unguarded, so a rename answered 200 for a twin lacking
the `name` label raises `KeyError` (the non-200 branch logs a plain warning and
is safe). The result is the issued calls and a flag that is `true` iff the step
finished without raising. -/
def renameStep (twin original_device : Device) (renameStatus : Nat) :
    List RegistryCall × Bool :=
  if ¬ strStartsWith (get_device_name twin) (get_device_name original_device) = true then
    ([RegistryCall.rename (lastComponent twin.name)
        (twinDisplayName (get_device_name original_device))],
      if renameStatus = 200 ∧ dictGet twin.labels "name" = none then false
      else true)
  else ([], true)

/-- The presence-check branch of `synchronize_emulated_twin` (main.py lines
364-393): `find_twin` runs first (line 366) and its `KeyError` on a nameless
matched twin aborts the invocation before anything else; then a missing original
is a 400 client error; a missing twin triggers cleanup (whose `KeyError` aborts)
then a create whose non-200 response is a 400 error; finally the rename step runs
on the resolved twin. A `none` result models the invocation dying on an
unhandled exception; the trace always lists the registry calls issued before the
end. -/
def presenceBranch (device_id : String) (device_list : List Device)
    (deleteStatus : String → Nat) (spawnResult : Nat × Device)
    (renameStatus : Nat) :
    Option ((String × Nat) × Option Device) × List RegistryCall :=
  match find_twin device_id device_list with
  | none => (none, [])
  | some twinOpt =>
    match find_original_device device_id device_list with
    | none => (some (("could not find original device", 400), none), [])
    | some original_device =>
      match twinOpt with
      | some twin =>
        if (renameStep twin original_device renameStatus).2 = false then
          (none, (renameStep twin original_device renameStatus).1)
        else
          (some (("OK", 200), some twin),
            (renameStep twin original_device renameStatus).1)
      | none =>
        if (clean_twins device_id device_list deleteStatus).2 = false then
          (none, cleanupCalls device_id device_list deleteStatus)
        else if spawnResult.1 ≠ 200 then
          (some (("ERROR: could not spawn twin", 400), none),
            cleanupCalls device_id device_list deleteStatus
              ++ [RegistryCall.create device_id
                    (twinDisplayName (get_device_name original_device))])
        else if (renameStep spawnResult.2 original_device renameStatus).2 = false then
          (none,
            cleanupCalls device_id device_list deleteStatus
              ++ [RegistryCall.create device_id
                    (twinDisplayName (get_device_name original_device))]
              ++ (renameStep spawnResult.2 original_device renameStatus).1)
        else
          (some (("OK", 200), some spawnResult.2),
            cleanupCalls device_id device_list deleteStatus
              ++ [RegistryCall.create device_id
                    (twinDisplayName (get_device_name original_device))]
              ++ (renameStep spawnResult.2 original_device renameStatus).1)

/-- `synchronize_emulated_twin` (main.py lines 319-398). Returns the source's
`(status, twin)` pair together with the trace of registry calls issued.
`spawnResult` is the `(r.status_code, r.json())` oracle of `spawn_twin`;
`renameStatus` is the (logging-only) rename response. The labelsChanged deltas
are checked in the source's order (`added`, then `modified`, then `removed`);
a labelsChanged event touching the emulation label in none of them falls through
with `new_spawn = False`, exactly as the Python `if/elif` chain does. In the
presence branch the source runs `find_twin` first (line 366), so its `KeyError`
on a nameless matched twin fires before the missing-original check. After a
successful spawn the source's `twin != None` test is vacuously true (`r.json()`
is a dict), so the rename check always runs. A `none` result models the
invocation dying on an unhandled `KeyError` (from `find_twin`, `clean_twins` or
`refresh_twin_name`); the trace always lists the calls issued before the end. -/
def synchronize_emulated_twin (event : Event) (labels : List (String × String))
    (device_id : String) (device_list : List Device)
    (deleteStatus : String → Nat) (spawnResult : Nat × Device)
    (renameStatus : Nat) :
    Option ((String × Nat) × Option Device) × List RegistryCall :=
  if event.eventType = "labelsChanged" ∧ hasKey event.added EMULATION_LABEL = false
      ∧ hasKey event.modified EMULATION_LABEL = true then
    (some (("-- Modified emulation label.", 200), none), [])
  else if event.eventType = "labelsChanged" ∧ hasKey event.added EMULATION_LABEL = false
      ∧ hasKey event.modified EMULATION_LABEL = false
      ∧ EMULATION_LABEL ∈ event.removed then
    (if (clean_twins device_id device_list deleteStatus).2 = false then none
      else some (("-- Removed emulation label.", 200), none),
      cleanupCalls device_id device_list deleteStatus)
  else if hasKey labels EMULATION_LABEL = true
      ∨ (event.eventType = "labelsChanged"
          ∧ hasKey event.added EMULATION_LABEL = true) then
    presenceBranch device_id device_list deleteStatus spawnResult renameStatus
  else
    (if (clean_twins device_id device_list deleteStatus).2 = false then none
      else some (("no emulation label", 200), none),
      cleanupCalls device_id device_list deleteStatus)

/-- Whether the control flow of `synchronize_emulated_twin` reaches the presence
branch (main.py line 364): derived from the same `if/elif` chain, with
`new_spawn` set only by a labelsChanged event whose `added` delta holds the
emulation label. -/
def entersPresenceBranch (event : Event) (labels : List (String × String)) : Bool :=
  if event.eventType = "labelsChanged" then
    if hasKey event.added EMULATION_LABEL then true
    else if hasKey event.modified EMULATION_LABEL then false
    else if EMULATION_LABEL ∈ event.removed then false
    else hasKey labels EMULATION_LABEL
  else hasKey labels EMULATION_LABEL

/-- `api_interface` (main.py lines 402-454). The roster fetch of line 435 is the
`device_list` parameter; `device_id` is `event['targetName'].split('/')[-1]`.
A `none` first component models the invocation dying on an unhandled exception:
one propagated from the synchronizer, the unguarded `labels[EMULATION_LABEL]`
lookup of line 450, or a `KeyError` inside `update_emulated_twin`; the second
component is always the trace of registry calls issued before the end. -/
def api_interface (event : Event) (labels : List (String × String))
    (device_list : List Device) (pyFloat : String → Option ℚ)
    (deleteStatus : String → Nat) (spawnResult : Nat × Device)
    (renameStatus : Nat) (publishStatus : ℚ → Nat) :
    Option (String × Nat) × List RegistryCall :=
  if event.eventType ≠ "temperature" ∧ event.eventType ≠ "labelsChanged" then
    (some ("skipped event type " ++ event.eventType, 200), [])
  else
    match synchronize_emulated_twin event labels (lastComponent event.targetName)
        device_list deleteStatus spawnResult renameStatus with
    | (none, calls1) => (none, calls1)
    | (some (status, twinOpt), calls1) =>
      match twinOpt with
      | none => (some status, calls1)
      | some twin =>
        if status.2 ≠ 200 then (some status, calls1)
        else if event.eventType = "labelsChanged" then (some ("OK", 200), calls1)
        else
          match dictGet labels EMULATION_LABEL with
          | none => (none, calls1)
          | some coeff =>
            match update_emulated_twin event.temperatureData twin coeff
                pyFloat publishStatus with
            | none => (none, calls1)
            | some (ustatus, calls2) =>
              if ustatus.2 ≠ 200 then (some ustatus, calls1 ++ calls2)
              else (some ("OK", 200), calls1 ++ calls2)

/-! Concrete oracles and devices used by the witness theorems. -/

/-- A `float()` oracle that parses exactly the string "1.0" (to the rational 1). -/
def pfOne : String → Option ℚ := fun s => if s = "1.0" then some 1 else none

/-- A publish/delete oracle that always answers 200. -/
def psOK : ℚ → Nat := fun _ => 200

/-- A delete oracle that always answers 200. -/
def dsOK : String → Nat := fun _ => 200

/-- A twin device with a previously reported temperature 0 at unixtime 1000. -/
def twinReported : Device :=
  { name := "projects/p1/devices/emu1"
    labels := [("name", "Room1 twin"), ("original_device_id", "abc")]
    reported := some ⟨some (some ⟨0, 1000⟩)⟩ }

/-- A twin device that has never reported. -/
def twinFresh : Device :=
  { name := "projects/p1/devices/emu2"
    labels := [("name", "Room1 twin"), ("original_device_id", "abc")]
    reported := none }

/-- A second twin bound to the same original id, later in the roster. -/
def twinSecond : Device :=
  { name := "projects/p1/devices/emu9"
    labels := [("name", "Room1 twin"), ("original_device_id", "abc")]
    reported := none }

/-- The original device of the witness scenarios: id `abc`, display name `Room1`. -/
def origDevice : Device :=
  { name := "projects/p1/devices/abc"
    labels := [("name", "Room1")]
    reported := none }

/-- A temperature event from device `abc` with reading 10 at unixtime 4600. -/
def tempEvent : Event :=
  { eventType := "temperature"
    targetName := "projects/p1/devices/abc"
    temperatureData := some ⟨10, 4600⟩ }

/-- The current labels of the witness scenarios' source device. -/
def labelsWithModel : List (String × String) := [("inertia-model", "1.0")]

/-- A twin bound to `abc` that lacks the `name` label (its display name falls
back to its id `emu1`). -/
def namelessTwin : Device :=
  { name := "projects/p1/devices/emu1"
    labels := [("original_device_id", "abc")]
    reported := none }

/-- A second nameless twin bound to `abc`, later in the roster. -/
def namelessTwin2 : Device :=
  { name := "projects/p1/devices/emu9"
    labels := [("original_device_id", "abc")]
    reported := none }

/-- An original device `abc` whose display name `emu` is a prefix of the
nameless twins' fallback display names. -/
def origEmuName : Device :=
  { name := "projects/p1/devices/abc"
    labels := [("name", "emu")]
    reported := none }

/-- C1: for a temperature event updating a twin with a previous reported
temperature `(prev.value, prev.updateTime)`, a reading `(reading.value,
reading.updateTime)` and a coefficient parsing to `k`, the value published to the
twin is exactly `prev.value + (-k * (prev.value - reading.value)) *
((reading.updateTime - prev.updateTime) / 60)`; the elapsed-minutes factor is
used as-is (it may be negative or zero) and no clamping is applied. -/
theorem update_decay_formula (reading prev : TempReading) (twin : Device)
    (rep : Reported) (coefficient : String) (k : ℚ)
    (pyFloat : String → Option ℚ) (publishStatus : ℚ → Nat)
    (hk : pyFloat coefficient = some k)
    (hrep : twin.reported = some rep)
    (htemp : rep.temperature = some (some prev)) :
    update_emulated_twin (some reading) twin coefficient pyFloat publishStatus
      = some ((if publishStatus (prev.value + (-k * (prev.value - reading.value)) *
                (((reading.updateTime - prev.updateTime : Int) : ℚ) / 60)) ≠ 200 then
              ("ERROR: bad emit response",
                publishStatus (prev.value + (-k * (prev.value - reading.value)) *
                  (((reading.updateTime - prev.updateTime : Int) : ℚ) / 60)))
            else ("OK", 200)),
          [RegistryCall.publish (lastComponent twin.name)
            (prev.value + (-k * (prev.value - reading.value)) *
              (((reading.updateTime - prev.updateTime : Int) : ℚ) / 60))]) := by
  simp only [update_emulated_twin, hk, hrep, htemp]
  split <;> rfl

/-- C1 witness: previous value 0 at unixtime 1000, reading 10 at unixtime 4600
(60 elapsed minutes), coefficient 1: the published value is
`0 + (-1 * (0 - 10)) * 60 = 600` (the spec's own unclamped-overshoot example). -/
theorem update_decay_formula_witness :
    update_emulated_twin (some ⟨10, 4600⟩) twinReported "1.0" pfOne psOK
      = some (("OK", 200), [RegistryCall.publish "emu1" 600]) := by
  refine (update_decay_formula ⟨10, 4600⟩ ⟨0, 1000⟩ twinReported ⟨some (some ⟨0, 1000⟩)⟩
    "1.0" 1 pfOne psOK (by decide) rfl rfl).trans ?_
  norm_num [psOK, twinReported]
  decide

/-- C2: for a temperature event whose twin has no previous reported temperature
(no `reported` state at all, or a reported temperature equal to `None`), the
update publishes exactly the event's reading value — no smoothing. -/
theorem update_initialization (reading : TempReading) (twin : Device)
    (coefficient : String) (k : ℚ)
    (pyFloat : String → Option ℚ) (publishStatus : ℚ → Nat)
    (hk : pyFloat coefficient = some k)
    (hprev : twin.reported = none ∨ twin.reported = some ⟨some none⟩) :
    update_emulated_twin (some reading) twin coefficient pyFloat publishStatus
      = some ((if publishStatus reading.value ≠ 200 then
              ("ERROR: bad emit response", publishStatus reading.value)
            else ("OK", 200)),
          [RegistryCall.publish (lastComponent twin.name) reading.value]) := by
  rcases hprev with h | h <;> simp only [update_emulated_twin, hk, h] <;>
    split <;> rfl

/-- C2 witness: a never-reported twin and a reading of 21.5 publishes 21.5. -/
theorem update_initialization_witness :
    update_emulated_twin (some ⟨43/2, 1000⟩) twinFresh "1.0" pfOne psOK
      = some (("OK", 200), [RegistryCall.publish "emu2" (43/2)]) := by
  refine (update_initialization ⟨43/2, 1000⟩ twinFresh "1.0" 1 pfOne psOK
    (by decide) (Or.inl rfl)).trans ?_
  norm_num [psOK, twinFresh]
  decide

/-- C10: with a parseable coefficient and a present event reading, the model
update succeeds (is `some`) exactly when the twin is not in the unguarded state
"`reported` present but holding no `temperature` entry"; in that state
(`reported = some ⟨none⟩`) the line-87 access raises and the update has no
result, so totality requires a present `reported` to contain a `temperature`
entry. -/
theorem update_totality (reading : TempReading) (twin : Device)
    (coefficient : String) (k : ℚ)
    (pyFloat : String → Option ℚ) (publishStatus : ℚ → Nat)
    (hk : pyFloat coefficient = some k) :
    (update_emulated_twin (some reading) twin coefficient pyFloat
        publishStatus).isSome = true
      ↔ twin.reported ≠ some ⟨none⟩ := by
  rcases hrep : twin.reported with _ | ⟨_ | ⟨_ | prev⟩⟩ <;>
    simp only [update_emulated_twin, hk, hrep] <;>
    first
      | (split <;> simp)
      | simp

/-- C10 witness: on a never-reported twin (which is not in the unguarded state)
the update does return a result. -/
theorem update_totality_witness :
    (update_emulated_twin (some ⟨5, 1000⟩) twinFresh "1.0" pfOne psOK).isSome
      = true :=
  (update_totality ⟨5, 1000⟩ twinFresh "1.0" 1 pfOne psOK (by decide)).mpr
    (by decide)

/-- On a roster whose every matched twin carries a `name` label, the
`clean_twins` loop visits exactly the roster devices satisfying `twinMatch`, in
order, issues one delete (by device id) for each, and completes without
raising. -/
lemma clean_twins_named (device_id : String) (device_list : List Device)
    (deleteStatus : String → Nat)
    (hnamed : ∀ d ∈ device_list, twinMatch device_id d = true →
      (dictGet d.labels "name").isSome = true) :
    (clean_twins device_id device_list deleteStatus).1.map Prod.fst
      = (device_list.filter (twinMatch device_id)).map
          (fun d => lastComponent d.name)
    ∧ (clean_twins device_id device_list deleteStatus).2 = true := by
  induction device_list with
  | nil => exact ⟨rfl, rfl⟩
  | cons d rest ih =>
    have hrest := ih (fun x hx hm => hnamed x (List.mem_cons_of_mem _ hx) hm)
    by_cases h1 : strStartsWith (lastComponent d.name) "emu" = true
    · by_cases h2 : (dictGet d.labels ORIGINAL_DEVICE_LABEL == some device_id) = true
      · have hn : (dictGet d.labels "name").isSome = true :=
          hnamed d (List.mem_cons_self _ _) (by simp [twinMatch, h1, h2])
        have hcrash : ¬(deleteStatus (lastComponent d.name) = 200
            ∧ dictGet d.labels "name" = none) := by
          rintro ⟨-, hno⟩
          rw [hno] at hn
          simp at hn
        simp [clean_twins, twinMatch, List.filter_cons, h1, h2, hcrash,
          hrest.1, hrest.2]
      · simp [clean_twins, twinMatch, List.filter_cons, h1, h2, hrest.1, hrest.2]
    · simp [clean_twins, twinMatch, List.filter_cons, h1, hrest.1, hrest.2]

/-- `find_twin` on a roster with no matching device returns Python `None`
without raising. -/
lemma find_twin_of_no_match (device_id : String) (device_list : List Device)
    (h : ∀ d ∈ device_list, twinMatch device_id d = false) :
    find_twin device_id device_list = some none := by
  induction device_list with
  | nil => rfl
  | cons d rest ih =>
    have hd := h d (List.mem_cons_self _ _)
    have hrest := ih (fun x hx => h x (List.mem_cons_of_mem _ hx))
    by_cases h1 : strStartsWith (lastComponent d.name) "emu" = true
    · have h2 : (dictGet d.labels ORIGINAL_DEVICE_LABEL == some device_id)
          = false := by
        simpa [twinMatch, h1] using hd
      simp [find_twin, h1, h2, hrest]
    · simp [find_twin, h1, hrest]

/-- A `find_twin` run that returns Python `None` saw no matching device, so the
`clean_twins` loop over the same roster issues no delete and completes. -/
lemma clean_twins_of_find_none (device_id : String) (device_list : List Device)
    (deleteStatus : String → Nat)
    (h : find_twin device_id device_list = some none) :
    clean_twins device_id device_list deleteStatus = ([], true) := by
  induction device_list with
  | nil => rfl
  | cons d rest ih =>
    by_cases h1 : strStartsWith (lastComponent d.name) "emu" = true
    · by_cases h2 : (dictGet d.labels ORIGINAL_DEVICE_LABEL == some device_id) = true
      · exfalso
        simp only [find_twin] at h
        rw [if_neg (not_not_intro h1), if_pos h2] at h
        split at h <;> simp at h
      · simp only [find_twin] at h
        rw [if_neg (not_not_intro h1), if_neg h2] at h
        simp only [clean_twins]
        rw [if_neg (not_not_intro h1), if_neg h2]
        exact ih h
    · simp only [find_twin] at h
      rw [if_pos h1] at h
      simp only [clean_twins]
      rw [if_pos h1]
      exact ih h

/-- `find_twin` only returns devices that satisfy the match condition (the
nameless-crash branch never returns). -/
lemma find_twin_sound (device_id : String) (device_list : List Device)
    (d : Device) (h : find_twin device_id device_list = some (some d)) :
    twinMatch device_id d = true := by
  induction device_list with
  | nil => simp [find_twin] at h
  | cons x rest ih =>
    by_cases h1 : strStartsWith (lastComponent x.name) "emu" = true
    · by_cases h2 : (dictGet x.labels ORIGINAL_DEVICE_LABEL == some device_id) = true
      · simp only [find_twin] at h
        rw [if_neg (not_not_intro h1), if_pos h2] at h
        split at h
        · simp at h
        · simp only [Option.some.injEq] at h
          subst h
          simp [twinMatch, h1, h2]
      · simp only [find_twin] at h
        rw [if_neg (not_not_intro h1), if_neg h2] at h
        exact ih h
    · simp only [find_twin] at h
      rw [if_pos h1] at h
      exact ih h

/-- `find_twin` returns the first matching roster device when that device
carries a `name` label. -/
lemma find_twin_first (device_id : String) (l1 : List Device) (d : Device)
    (l2 : List Device) (hd : twinMatch device_id d = true)
    (hn : (dictGet d.labels "name").isSome = true)
    (hl1 : ∀ x ∈ l1, twinMatch device_id x = false) :
    find_twin device_id (l1 ++ d :: l2) = some (some d) := by
  induction l1 with
  | nil =>
    obtain ⟨h1, h2⟩ : strStartsWith (lastComponent d.name) "emu" = true
        ∧ dictGet d.labels ORIGINAL_DEVICE_LABEL = some device_id := by
      simpa [twinMatch] using hd
    have hno : ¬(dictGet d.labels "name" = none) := by
      intro hx
      rw [hx] at hn
      simp at hn
    simp only [List.nil_append, find_twin]
    rw [if_neg (not_not_intro h1), if_pos (by simp [h2]), if_neg hno]
  | cons a as ih =>
    have ha := hl1 a (List.mem_cons_self _ _)
    have ihh := ih (fun x hx => hl1 x (List.mem_cons_of_mem _ hx))
    by_cases ha1 : strStartsWith (lastComponent a.name) "emu" = true
    · have ha2 : (dictGet a.labels ORIGINAL_DEVICE_LABEL == some device_id)
          = false := by
        simpa [twinMatch, ha1] using ha
      simp only [List.cons_append, find_twin]
      rw [if_neg (not_not_intro ha1), if_neg (by simp [ha2])]
      exact ihh
    · simp only [List.cons_append, find_twin]
      rw [if_pos ha1]
      exact ihh

/-- C5 (amended): for every roster in which each twin-prefixed device bound to
the target id carries a `name` label, cleanup issues exactly one delete call per
such device (two for a roster with two bound twins, zero for none), completes
its loop, and issues the same deletes under every delete-response oracle — an
individual delete failure does not abort the remaining deletions. Without the
name labels, the success log of a delete that returns 200 raises `KeyError` and
aborts the remaining deletions. -/
theorem clean_twins_one_delete_per_match (device_id : String)
    (device_list : List Device) (deleteStatus : String → Nat)
    (hnamed : ∀ d ∈ device_list, twinMatch device_id d = true →
      (dictGet d.labels "name").isSome = true) :
    (clean_twins device_id device_list deleteStatus).1.map Prod.fst
      = (device_list.filter (twinMatch device_id)).map
          (fun d => lastComponent d.name)
    ∧ (clean_twins device_id device_list deleteStatus).2 = true
    ∧ ∀ ds2 : String → Nat,
        (clean_twins device_id device_list deleteStatus).1.map Prod.fst
          = (clean_twins device_id device_list ds2).1.map Prod.fst := by
  obtain ⟨hmap, hok⟩ := clean_twins_named device_id device_list deleteStatus hnamed
  exact ⟨hmap, hok, fun ds2 =>
    hmap.trans (clean_twins_named device_id device_list ds2 hnamed).1.symm⟩

/-- C5 counterexample: a roster with two nameless twins bound to `abc` under an
all-200 delete oracle has two matching devices, but only one delete is issued —
the first delete's success log raises and aborts the loop, so cleanup does not
issue one delete per match. -/
theorem clean_twins_abort_cex :
    ([namelessTwin, namelessTwin2].filter (twinMatch "abc")).length = 2
    ∧ (clean_twins "abc" [namelessTwin, namelessTwin2] dsOK).1.map Prod.fst
        = ["emu1"]
    ∧ (clean_twins "abc" [namelessTwin, namelessTwin2] dsOK).2 = false := by
  decide

/-- C5 witness: a roster with two named twins bound to `abc` gets exactly two
delete calls, one per twin, in roster order. -/
theorem clean_twins_one_delete_per_match_witness :
    (clean_twins "abc" [twinReported, twinSecond] dsOK).1.map Prod.fst
      = ["emu1", "emu9"] := by
  refine ((clean_twins_one_delete_per_match "abc" [twinReported, twinSecond]
    dsOK (by decide)).1).trans ?_
  decide

/-- C7 (amended): `find_twin` returns a device only if it is twin-prefixed and
bound to the given id; it returns `None` on a roster with no such device; and
when several devices satisfy both conditions, the first in roster order is
returned provided that first match carries a `name` label — a nameless first
match makes the lookup raise in its match log instead of returning the
device. -/
theorem find_twin_first_match (device_id : String) (device_list : List Device) :
    (∀ d, find_twin device_id device_list = some (some d) →
        twinMatch device_id d = true)
    ∧ ((∀ d ∈ device_list, twinMatch device_id d = false) →
        find_twin device_id device_list = some none)
    ∧ (∀ l1 d l2, device_list = l1 ++ d :: l2 → twinMatch device_id d = true →
        (dictGet d.labels "name").isSome = true →
        (∀ x ∈ l1, twinMatch device_id x = false) →
        find_twin device_id device_list = some (some d)) := by
  refine ⟨fun d h => find_twin_sound device_id device_list d h,
    fun h => find_twin_of_no_match device_id device_list h,
    fun l1 d l2 hsplit hd hn hl1 => ?_⟩
  subst hsplit
  exact find_twin_first device_id l1 d l2 hd hn hl1

/-- C7 counterexample: the first roster device satisfies both match conditions,
yet `find_twin` raises in its match log (the twin has no `name` label) instead
of returning it. -/
theorem find_twin_first_match_cex :
    twinMatch "abc" namelessTwin = true
    ∧ find_twin "abc" [namelessTwin, twinSecond] = none := by
  decide

/-- C7 witness: on a roster holding two named twins bound to `abc`, the first in
roster order is returned. -/
theorem find_twin_first_match_witness :
    find_twin "abc" [twinReported, twinSecond] = some (some twinReported) :=
  (find_twin_first_match "abc" [twinReported, twinSecond]).2.2
    [] twinReported [twinSecond] rfl (by decide) (by decide) (by simp)

/-- When the control flow reaches the presence check (main.py line 364),
`synchronize_emulated_twin` computes the presence branch. -/
lemma sync_presence_reduce (event : Event) (labels : List (String × String))
    (device_id : String) (device_list : List Device)
    (deleteStatus : String → Nat) (spawnResult : Nat × Device) (renameStatus : Nat)
    (hp : entersPresenceBranch event labels = true) :
    synchronize_emulated_twin event labels device_id device_list deleteStatus
        spawnResult renameStatus
      = presenceBranch device_id device_list deleteStatus spawnResult
          renameStatus := by
  unfold entersPresenceBranch at hp
  unfold synchronize_emulated_twin
  by_cases he : event.eventType = "labelsChanged"
  · rw [if_pos he] at hp
    by_cases ha : hasKey event.added EMULATION_LABEL
    · rw [if_neg (by simp [ha]), if_neg (by simp [ha]), if_pos (Or.inr ⟨he, ha⟩)]
    · rw [if_neg ha] at hp
      by_cases hm : hasKey event.modified EMULATION_LABEL
      · rw [if_pos hm] at hp; exact absurd hp (by decide)
      · rw [if_neg hm] at hp
        by_cases hr : EMULATION_LABEL ∈ event.removed
        · rw [if_pos hr] at hp; exact absurd hp (by decide)
        · rw [if_neg hr] at hp
          rw [if_neg (by simp [hm]), if_neg (by simp [hr]), if_pos (Or.inl hp)]
  · rw [if_neg he] at hp
    rw [if_neg (by simp [he]), if_neg (by simp [he]), if_pos (Or.inl hp)]

/-- C6 (amended): when the roster already holds a twin bound to the original
device that carries a `name` label — so the lookup returns it instead of
raising — and whose display name starts with the original's current display
name, the presence-check branch issues no registry call at all, in particular no
create and no rename, and returns success with that twin. -/
theorem sync_idempotent (event : Event) (labels : List (String × String))
    (device_id : String) (device_list : List Device)
    (deleteStatus : String → Nat) (spawnResult : Nat × Device) (renameStatus : Nat)
    (orig t : Device)
    (hp : entersPresenceBranch event labels = true)
    (horig : find_original_device device_id device_list = some orig)
    (htwin : find_twin device_id device_list = some (some t))
    (hname : strStartsWith (get_device_name t) (get_device_name orig) = true) :
    synchronize_emulated_twin event labels device_id device_list deleteStatus
        spawnResult renameStatus
      = (some (("OK", 200), some t), []) := by
  rw [sync_presence_reduce event labels device_id device_list deleteStatus
    spawnResult renameStatus hp]
  unfold presenceBranch
  rw [htwin, horig]
  simp [renameStep, hname]

/-- C6 counterexample: the roster holds a twin correctly bound to `abc` whose
display name (the fallback `emu9`) starts with the original's display name
`emu`, yet re-running the presence-check branch does not return success with
that twin — the invocation raises in `find_twin`'s match log because the twin
lacks a `name` label. -/
theorem sync_idempotent_cex :
    twinMatch "abc" namelessTwin2 = true
    ∧ strStartsWith (get_device_name namelessTwin2)
        (get_device_name origEmuName) = true
    ∧ entersPresenceBranch tempEvent labelsWithModel = true
    ∧ synchronize_emulated_twin tempEvent labelsWithModel "abc"
        [origEmuName, namelessTwin2] dsOK (200, twinSecond) 200
      = (none, []) := by
  decide

/-- C6 witness: a stable roster (original `abc` plus its correctly named, bound
twin) yields success with the existing twin and an empty call trace. -/
theorem sync_idempotent_witness :
    synchronize_emulated_twin tempEvent labelsWithModel "abc"
        [origDevice, twinReported] dsOK (200, twinSecond) 200
      = (some (("OK", 200), some twinReported), []) :=
  sync_idempotent tempEvent labelsWithModel "abc" [origDevice, twinReported]
    dsOK (200, twinSecond) 200 origDevice twinReported
    (by decide) (by decide) (by decide) (by decide)

/-- C8 (amended): for every event that reaches the presence check with an
original device id absent from the roster, provided the twin lookup that the
source runs first (main.py line 366) returns without raising, the invocation
returns the 400 client error with an empty registry-call trace — no cleanup,
create, rename or publish — both at the synchronizer and through
`api_interface`. Without that proviso the lookup's match log can raise on a
nameless bound twin before the missing-original check fires. -/
theorem sync_missing_original (event : Event) (labels : List (String × String))
    (device_list : List Device) (pyFloat : String → Option ℚ)
    (deleteStatus : String → Nat) (spawnResult : Nat × Device) (renameStatus : Nat)
    (publishStatus : ℚ → Nat) (twinOpt : Option Device)
    (he : event.eventType = "temperature" ∨ event.eventType = "labelsChanged")
    (hp : entersPresenceBranch event labels = true)
    (htwin : find_twin (lastComponent event.targetName) device_list
      = some twinOpt)
    (horig : find_original_device (lastComponent event.targetName) device_list
      = none) :
    synchronize_emulated_twin event labels (lastComponent event.targetName)
        device_list deleteStatus spawnResult renameStatus
      = (some (("could not find original device", 400), none), [])
    ∧ api_interface event labels device_list pyFloat deleteStatus spawnResult
        renameStatus publishStatus
      = (some ("could not find original device", 400), []) := by
  have hsync : synchronize_emulated_twin event labels
      (lastComponent event.targetName) device_list deleteStatus spawnResult
      renameStatus
      = (some (("could not find original device", 400), none), []) := by
    rw [sync_presence_reduce event labels (lastComponent event.targetName)
      device_list deleteStatus spawnResult renameStatus hp]
    unfold presenceBranch
    rw [htwin, horig]
  refine ⟨hsync, ?_⟩
  have hcond : ¬(event.eventType ≠ "temperature"
      ∧ event.eventType ≠ "labelsChanged") := by
    rcases he with he | he <;> simp [he]
  unfold api_interface
  rw [if_neg hcond, hsync]

/-- C8 counterexample: the event reaches the presence check and the original
device `abc` is absent from the roster, but the invocation does not return the
400 client error — the preceding twin lookup raises on the nameless bound twin
and the invocation dies with an empty trace instead. -/
theorem sync_missing_original_cex :
    entersPresenceBranch tempEvent labelsWithModel = true
    ∧ find_original_device (lastComponent tempEvent.targetName) [namelessTwin]
        = none
    ∧ api_interface tempEvent labelsWithModel [namelessTwin] pfOne dsOK
        (200, twinSecond) 200 psOK
      = (none, []) := by
  decide

/-- C8 witness: a roster that lacks device `abc` but holds its named twin gives
the 400 error and an empty trace through `api_interface`. -/
theorem sync_missing_original_witness :
    api_interface tempEvent labelsWithModel [twinSecond] pfOne dsOK
        (200, twinSecond) 200 psOK
      = (some ("could not find original device", 400), []) :=
  (sync_missing_original tempEvent labelsWithModel [twinSecond] pfOne dsOK
    (200, twinSecond) 200 psOK (some twinSecond) (Or.inl rfl) (by decide)
    (by decide) (by decide)).2

/-- C9: a temperature event for which the synchronizer returns normally and
hands back a twin must have the emulation label among the supplied current
labels — the spawn flag is only ever set for labelsChanged events — so the
`labels['inertia-model']` lookup that `api_interface` performs before the model
update succeeds. -/
theorem sync_temperature_label_present (event : Event)
    (labels : List (String × String)) (device_id : String)
    (device_list : List Device) (deleteStatus : String → Nat)
    (spawnResult : Nat × Device) (renameStatus : Nat) (st : String × Nat)
    (t : Device)
    (he : event.eventType = "temperature")
    (hs : (synchronize_emulated_twin event labels device_id device_list
        deleteStatus spawnResult renameStatus).1 = some (st, some t)) :
    hasKey labels EMULATION_LABEL = true := by
  by_cases hl : hasKey labels EMULATION_LABEL = true
  · exact hl
  · exfalso
    have hne : event.eventType ≠ "labelsChanged" := by rw [he]; decide
    unfold synchronize_emulated_twin at hs
    rw [if_neg (fun h => hne h.1), if_neg (fun h => hne h.1),
      if_neg (fun h => h.elim hl (fun h2 => hne h2.1))] at hs
    by_cases hc : (clean_twins device_id device_list deleteStatus).2 = false
    · rw [if_pos hc] at hs
      simp at hs
    · rw [if_neg hc] at hs
      simp at hs

/-- C9 witness: on the stable scenario the synchronizer returns a twin, and the
emulation label is indeed present in the current labels. -/
theorem sync_temperature_label_present_witness :
    hasKey labelsWithModel EMULATION_LABEL = true :=
  sync_temperature_label_present tempEvent labelsWithModel "abc"
    [origDevice, twinReported] dsOK (200, twinSecond) 200 ("OK", 200)
    twinReported rfl (by decide)

/-- Cleanup only ever issues delete calls. -/
lemma cleanupCalls_delete (device_id : String) (device_list : List Device)
    (deleteStatus : String → Nat) (c : RegistryCall)
    (hc : c ∈ cleanupCalls device_id device_list deleteStatus) :
    ∃ i, c = RegistryCall.delete i := by
  simp only [cleanupCalls, List.mem_map] at hc
  obtain ⟨p, _, hp⟩ := hc
  exact ⟨p.1, hp.symm⟩

/-- The rename step only ever issues rename calls. -/
lemma renameStep_shape (t o : Device) (renameStatus : Nat) (c : RegistryCall)
    (hc : c ∈ (renameStep t o renameStatus).1) :
    ∃ i n, c = RegistryCall.rename i n := by
  unfold renameStep at hc
  split at hc
  · simp at hc
    exact ⟨_, _, hc⟩
  · simp at hc

/-- Every call in a presence-branch trace is a delete, a create or a rename —
the branch never publishes a reading. -/
lemma presence_calls_shape (device_id : String) (device_list : List Device)
    (deleteStatus : String → Nat) (spawnResult : Nat × Device)
    (renameStatus : Nat) (c : RegistryCall)
    (hc : c ∈ (presenceBranch device_id device_list deleteStatus spawnResult
        renameStatus).2) :
    (∃ i, c = RegistryCall.delete i) ∨ (∃ i n, c = RegistryCall.create i n)
      ∨ (∃ i n, c = RegistryCall.rename i n) := by
  unfold presenceBranch at hc
  cases hft : find_twin device_id device_list with
  | none => rw [hft] at hc; simp at hc
  | some twinOpt =>
    rw [hft] at hc
    cases hfo : find_original_device device_id device_list with
    | none => rw [hfo] at hc; simp at hc
    | some orig =>
      rw [hfo] at hc
      cases twinOpt with
      | some t =>
        dsimp only at hc
        split_ifs at hc <;> dsimp only at hc <;>
          exact Or.inr (Or.inr (renameStep_shape _ _ _ _ hc))
      | none =>
        dsimp only at hc
        split_ifs at hc <;> dsimp only at hc
        · exact Or.inl (cleanupCalls_delete _ _ _ _ hc)
        · rcases List.mem_append.mp hc with hc | hc
          · exact Or.inl (cleanupCalls_delete _ _ _ _ hc)
          · simp at hc
            exact Or.inr (Or.inl ⟨_, _, hc⟩)
        · rcases List.mem_append.mp hc with hc | hc
          · rcases List.mem_append.mp hc with hc | hc
            · exact Or.inl (cleanupCalls_delete _ _ _ _ hc)
            · simp at hc
              exact Or.inr (Or.inl ⟨_, _, hc⟩)
          · exact Or.inr (Or.inr (renameStep_shape _ _ _ _ hc))
        · rcases List.mem_append.mp hc with hc | hc
          · rcases List.mem_append.mp hc with hc | hc
            · exact Or.inl (cleanupCalls_delete _ _ _ _ hc)
            · simp at hc
              exact Or.inr (Or.inl ⟨_, _, hc⟩)
          · exact Or.inr (Or.inr (renameStep_shape _ _ _ _ hc))

/-- Every call in a synchronizer trace is a delete, a create or a rename — the
synchronizer never publishes a reading. -/
lemma sync_calls_shape (event : Event) (labels : List (String × String))
    (device_id : String) (device_list : List Device)
    (deleteStatus : String → Nat) (spawnResult : Nat × Device)
    (renameStatus : Nat) (c : RegistryCall)
    (hc : c ∈ (synchronize_emulated_twin event labels device_id device_list
        deleteStatus spawnResult renameStatus).2) :
    (∃ i, c = RegistryCall.delete i) ∨ (∃ i n, c = RegistryCall.create i n)
      ∨ (∃ i n, c = RegistryCall.rename i n) := by
  unfold synchronize_emulated_twin at hc
  split_ifs at hc <;> (try dsimp only at hc) <;>
    first
      | simp at hc
      | exact Or.inl (cleanupCalls_delete _ _ _ _ hc)
      | exact presence_calls_shape _ _ _ _ _ _ hc

/-- C3: when twin creation is attempted (presence branch entered with the twin
lookup returning `None`) and the create response is not 200, the invocation
fails with the 400 error both at the synchronizer and through `api_interface`,
and the trace issued so far holds no rename and no publish — the rename and
model-update steps are skipped. -/
theorem sync_spawn_failure (event : Event) (labels : List (String × String))
    (device_id : String) (device_list : List Device)
    (pyFloat : String → Option ℚ) (deleteStatus : String → Nat)
    (spawnResult : Nat × Device) (renameStatus : Nat) (publishStatus : ℚ → Nat)
    (orig : Device)
    (he : event.eventType = "temperature" ∨ event.eventType = "labelsChanged")
    (hdid : lastComponent event.targetName = device_id)
    (hp : entersPresenceBranch event labels = true)
    (horig : find_original_device device_id device_list = some orig)
    (htwin : find_twin device_id device_list = some none)
    (hspawn : spawnResult.1 ≠ 200) :
    synchronize_emulated_twin event labels device_id device_list deleteStatus
        spawnResult renameStatus
      = (some (("ERROR: could not spawn twin", 400), none),
          cleanupCalls device_id device_list deleteStatus
            ++ [RegistryCall.create device_id
                  (twinDisplayName (get_device_name orig))])
    ∧ api_interface event labels device_list pyFloat deleteStatus spawnResult
        renameStatus publishStatus
      = (some ("ERROR: could not spawn twin", 400),
          cleanupCalls device_id device_list deleteStatus
            ++ [RegistryCall.create device_id
                  (twinDisplayName (get_device_name orig))])
    ∧ ∀ c ∈ cleanupCalls device_id device_list deleteStatus
          ++ [RegistryCall.create device_id
                (twinDisplayName (get_device_name orig))],
        (∀ tid nn, c ≠ RegistryCall.rename tid nn)
          ∧ (∀ tid val, c ≠ RegistryCall.publish tid val) := by
  have hclean := clean_twins_of_find_none device_id device_list deleteStatus htwin
  have hsync : synchronize_emulated_twin event labels device_id device_list
      deleteStatus spawnResult renameStatus
      = (some (("ERROR: could not spawn twin", 400), none),
          cleanupCalls device_id device_list deleteStatus
            ++ [RegistryCall.create device_id
                  (twinDisplayName (get_device_name orig))]) := by
    rw [sync_presence_reduce event labels device_id device_list deleteStatus
      spawnResult renameStatus hp]
    unfold presenceBranch
    rw [htwin, horig]
    simp [hclean, hspawn]
  refine ⟨hsync, ?_, ?_⟩
  · have hcond : ¬(event.eventType ≠ "temperature"
        ∧ event.eventType ≠ "labelsChanged") := by
      rcases he with he | he <;> simp [he]
    unfold api_interface
    rw [if_neg hcond, hdid, hsync]
  · intro c hc
    rcases List.mem_append.mp hc with hc | hc
    · obtain ⟨i, rfl⟩ := cleanupCalls_delete _ _ _ _ hc
      exact ⟨by simp, by simp⟩
    · simp only [List.mem_singleton] at hc
      subst hc
      exact ⟨by simp, by simp⟩

/-- C3 witness: a roster holding only the original device and a create response
of 500 produce the 400 failure with exactly the one create call issued. -/
theorem sync_spawn_failure_witness :
    api_interface tempEvent labelsWithModel [origDevice] pfOne dsOK
        (500, twinSecond) 200 psOK
      = (some ("ERROR: could not spawn twin", 400),
          [RegistryCall.create "abc" "Room1 twin"]) := by
  refine ((sync_spawn_failure tempEvent labelsWithModel "abc" [origDevice] pfOne
    dsOK (500, twinSecond) 200 psOK origDevice (Or.inl rfl) (by decide)
    (by decide) (by decide) (by decide) (by decide)).2.1).trans ?_
  decide

/-- C4: a temperature event whose emulation-coefficient label value does not
parse as a float makes `api_interface` skip the model update: the invocation
returns the 200 success and the trace holds no publish call. -/
theorem api_nonfloat_skip (event : Event) (labels : List (String × String))
    (device_list : List Device) (pyFloat : String → Option ℚ)
    (deleteStatus : String → Nat) (spawnResult : Nat × Device)
    (renameStatus : Nat) (publishStatus : ℚ → Nat) (m : String) (t : Device)
    (calls1 : List RegistryCall) (v : String)
    (he : event.eventType = "temperature")
    (hsync : synchronize_emulated_twin event labels
        (lastComponent event.targetName) device_list deleteStatus spawnResult
        renameStatus = (some ((m, 200), some t), calls1))
    (hv : dictGet labels EMULATION_LABEL = some v)
    (hpf : pyFloat v = none) :
    api_interface event labels device_list pyFloat deleteStatus spawnResult
        renameStatus publishStatus
      = (some ("OK", 200), calls1)
    ∧ ∀ tid val, RegistryCall.publish tid val ∉ calls1 := by
  constructor
  · have hcond : ¬(event.eventType ≠ "temperature"
        ∧ event.eventType ≠ "labelsChanged") := by simp [he]
    have hlc : ¬ event.eventType = "labelsChanged" := by rw [he]; decide
    unfold api_interface
    rw [if_neg hcond, hsync]
    simp [hlc, hv, update_emulated_twin, hpf]
  · intro tid val hmem
    have hshape := sync_calls_shape event labels (lastComponent event.targetName)
      device_list deleteStatus spawnResult renameStatus
      (RegistryCall.publish tid val) (by rw [hsync]; exact hmem)
    rcases hshape with ⟨i, h⟩ | ⟨i, n, h⟩ | ⟨i, n, h⟩ <;> simp at h

/-- C4 witness: coefficient label value `"fast"` on the stable scenario gives
success with no publish (and, here, no call at all). -/
theorem api_nonfloat_skip_witness :
    api_interface tempEvent [("inertia-model", "fast")] [origDevice, twinReported]
        pfOne dsOK (200, twinSecond) 200 psOK
      = (some ("OK", 200), []) :=
  (api_nonfloat_skip tempEvent [("inertia-model", "fast")]
    [origDevice, twinReported] pfOne dsOK (200, twinSecond) 200 psOK
    "OK" twinReported [] "fast" rfl (by decide) (by decide) (by decide)).1

end StudioInertia
